import Mathlib

/-!
Verification of the a_gent_parl content store and publish workflow.

This file gives a shallow embedding of the parts of the repository that the
spec's testable properties talk about:

* `ContentDatabase` (src/src/utilities/database_manager.py): the generic
  `ContentHistory` table, `mark_content_posted`, `is_content_posted`,
  `get_random_unposted_content`, and the unposted-row insert used by
  `QuoteDatabase.migrate_to_content_database`.
* `QuoteDatabase` / `NewsDatabase` (same file): the legacy `Quote` and `News`
  tables with `mark_quote_posted`, `mark_news_posted`,
  `get_random_unposted_quote`.
* `NerdCuriositiesDB` (src/src/weekly_nerd_curiosities/database.py):
  `is_article_posted`.
* `TelegramInterface` (src/src/utilities/telegram_interface.py):
  `_make_request_with_retry` and `post_image_and_caption`.
* `LLMInterface.generate_text` in both its current form
  (src/src/utilities/llm_interface.py) and its legacy form
  (src/utilities/llm_interface.py).
* The weekly_nerd_curiosities orchestrator (src/src/weekly_nerd_curiosities/
  main.py): `publish_to_telegram`, `publish_and_update_database`, and the
  phase-4 result classification in `main`.

Tables are lists of row structures; sqlite behaviour (UNIQUE constraints with
NULL semantics, UPDATE row counts, LIKE pattern matching, column defaults) is
embedded explicitly.  Network calls are modelled by explicit streams of
attempt outcomes, and `ORDER BY RANDOM() LIMIT 1` by an arbitrary index `k`
standing for the random draw.
-/

/-- A row of the generic `ContentHistory` table created by
`ContentDatabase.create_schema`.  Columns, in schema order:
`content_title TEXT NOT NULL`, `content_url TEXT`, `content_type TEXT`,
`category TEXT`, `module_name TEXT`, `post_date TIMESTAMP DEFAULT
CURRENT_TIMESTAMP`, `posted INTEGER DEFAULT 1`, `metadata TEXT`.
Nullable columns are `Option String`; `posted` is `Bool`.  The integer
`id` column plays no role in any claim and is omitted. -/
structure ContentRow where
  content_title : String
  content_url : Option String
  content_type : Option String
  category : Option String
  module_name : Option String
  post_date : Option String
  posted : Bool
  metadata : Option String
deriving Repr, DecidableEq

/-- The `posted` column default of the `ContentHistory` schema:
`posted INTEGER DEFAULT 1`. -/
def contentHistoryDefaultPosted : Bool := true

/-- SQL equality on nullable values as used by a UNIQUE constraint:
two NULLs are never equal, so NULL-keyed rows never conflict. -/
def sqlEq (a b : Option String) : Bool :=
  match a, b with
  | some x, some y => x == y
  | _, _ => false

/-- Whether an existing row conflicts with key `(title, ct, m)` under the
schema constraint `UNIQUE(content_title, content_type, module_name)`. -/
def matchesKey (title : String) (ct m : Option String) (r : ContentRow) : Bool :=
  r.content_title == title && sqlEq r.content_type ct && sqlEq r.module_name m

/-- Number of rows of the store carrying the dedup key `(title, ct, m)`
(in the SQL sense: NULL components never compare equal). -/
def countKey (db : List ContentRow) (title : String) (ct m : Option String) : Nat :=
  (db.filter (matchesKey title ct m)).length

/-- The row inserted by `ContentDatabase.mark_content_posted`: every column is
given explicitly, with `posted = 1` and `post_date = datetime.now()`. -/
def postedInsertRow (content_title : String)
    (content_url category content_type module_name : Option String)
    (now : String) (metadata : Option String) : ContentRow :=
  { content_title := content_title
    content_url := content_url
    content_type := content_type
    category := category
    module_name := module_name
    post_date := some now
    posted := true
    metadata := metadata }

/-- `ContentDatabase.mark_content_posted`: INSERT a fully-populated row with
`posted = 1` and `post_date = now`.  A violation of
`UNIQUE(content_title, content_type, module_name)` raises
`sqlite3.IntegrityError`, which the method catches, returning `False` and
leaving the table unchanged; on success it commits and returns `True`. -/
def mark_content_posted (db : List ContentRow) (content_title : String)
    (content_url category content_type module_name : Option String)
    (now : String) (metadata : Option String) : Bool × List ContentRow :=
  if db.any (matchesKey content_title content_type module_name) then
    (false, db)
  else
    (true, db ++ [postedInsertRow content_title content_url category content_type
        module_name now metadata])

/-- A sequence of further inserts that all share the dedup key
`(title, ct, m)` but may vary in url, category, timestamp and metadata:
each element `(url, cat, now, md)` is one `mark_content_posted` call.
Returns the list of per-call results and the final store. -/
def insertSameKeySeq (db : List ContentRow) (title : String) (ct m : Option String) :
    List (Option String × Option String × String × Option String) →
    List Bool × List ContentRow
  | [] => ([], db)
  | (url, cat, now, md) :: rest =>
    let step := mark_content_posted db title url cat ct m now md
    let tail := insertSameKeySeq step.2 title ct m rest
    (step.1 :: tail.1, tail.2)

/-- The unposted row inserted by `QuoteDatabase.migrate_to_content_database`
for a quote with `posted = 0`: the INSERT lists only
`(content_title, content_type, category, module_name, posted, metadata)`
with `posted = 0` and `content_type = 'quote'`, so the omitted columns take
their schema defaults: `content_url` is NULL and `post_date` becomes
`CURRENT_TIMESTAMP` (the insertion time `now`). -/
def migratedUnpostedRow (content_title : String)
    (category module_name metadata : Option String) (now : String) : ContentRow :=
  { content_title := content_title
    content_url := none
    content_type := some "quote"
    category := category
    module_name := module_name
    post_date := some now
    posted := false
    metadata := metadata }

/-- The unposted-branch INSERT of `migrate_to_content_database`, subject to the
same UNIQUE constraint (an `IntegrityError` is caught and the quote skipped). -/
def migrate_insert_unposted (db : List ContentRow) (content_title : String)
    (category module_name metadata : Option String) (now : String) :
    Bool × List ContentRow :=
  if db.any (matchesKey content_title (some "quote") module_name) then
    (false, db)
  else
    (true, db ++ [migratedUnpostedRow content_title category module_name metadata now])

/-- The spec's row invariant relating `posted` and `post_date`:
posted implies a set date, unposted implies an unset date. -/
def postedDateInvariant (r : ContentRow) : Prop :=
  (r.posted = true → r.post_date ≠ none) ∧ (r.posted = false → r.post_date = none)

instance (r : ContentRow) : Decidable (postedDateInvariant r) := by
  unfold postedDateInvariant; infer_instance

/-- The WHERE clause of `ContentDatabase.get_random_unposted_content`:
`posted = 0`, plus `content_type = ?` when a content type is supplied and
`category = ?` when a category is supplied (exact SQL equality; a NULL
column never equals a supplied value). -/
def contentFilter (content_type category : Option String) (r : ContentRow) : Bool :=
  !r.posted
    && (match content_type with
        | none => true
        | some t => r.content_type == some t)
    && (match category with
        | none => true
        | some c => r.category == some c)

/-- `ContentDatabase.get_random_unposted_content`: select the matching rows,
`ORDER BY RANDOM() LIMIT 1`.  The random draw is modelled by an arbitrary
`k : Nat`: the result is entry `k % n` of the `n` matching rows, so some row
is returned whenever a match exists and `none` exactly when none does
(the `sqlite3.Error` handler also returns `None`). -/
def get_random_unposted_content (db : List ContentRow)
    (content_type category : Option String) (k : Nat) : Option ContentRow :=
  let l := db.filter (contentFilter content_type category)
  l.get? (k % l.length)

/-- `ContentDatabase.is_content_posted`: count rows with the given title (and
content type, when supplied) having `posted = 1`; return whether the count is
positive.  If the query raises `sqlite3.Error` (modelled by
`storageError = some e`), the handler returns `True` — "assume posted to
avoid duplicates on error". -/
def is_content_posted (db : List ContentRow) (storageError : Option String)
    (content_title : String) (content_type : Option String) : Bool :=
  match storageError with
  | some _ => true
  | none =>
    decide (0 < (db.filter (fun r =>
      r.content_title == content_title && r.posted
        && (match content_type with
            | none => true
            | some t => r.content_type == some t))).length)

/-- A row of the `ArticleHistory` table created by
`NerdCuriositiesDB._create_schema` (weekly_nerd_curiosities/database.py). -/
structure ArticleRow where
  id : Nat
  article_title : String
  article_url : String
  category : Option String
  post_date : Option String
  posted : Bool
deriving Repr, DecidableEq

/-- `NerdCuriositiesDB.is_article_posted`: count `posted = 1` rows with the
title; on `sqlite3.Error` the handler returns `True` ("assume posted to avoid
duplicates on error"). -/
def is_article_posted (db : List ArticleRow) (storageError : Option String)
    (article_title : String) : Bool :=
  match storageError with
  | some _ => true
  | none =>
    decide (0 < (db.filter (fun r =>
      r.article_title == article_title && r.posted)).length)

/-- A row of the legacy `Quote` table created by
`QuoteDatabase._ensure_quote_schema`:
`id INTEGER PRIMARY KEY`, `author TEXT`, `category TEXT`, `quote_text TEXT`,
`posted INTEGER DEFAULT 0`.  Note: this table has no `post_date` column. -/
structure QuoteRow where
  id : Nat
  author : Option String
  category : Option String
  quote_text : Option String
  posted : Bool
deriving Repr, DecidableEq

/-- Whether `pat` heads the character list `s` (used to define substring
matching for the SQL LIKE patterns below). -/
def headMatch : List Char → List Char → Bool
  | [], _ => true
  | _ :: _, [] => false
  | a :: as, b :: bs => a == b && headMatch as bs

/-- Whether `pat` occurs as a contiguous substring of `s`. -/
def containsSub (pat : List Char) : List Char → Bool
  | [] => pat.isEmpty
  | c :: rest => headMatch pat (c :: rest) || containsSub pat rest

/-- Lower-cased character list of a string (sqlite LIKE is case-insensitive
for ASCII). -/
def lowerChars (s : String) : List Char := s.data.map Char.toLower

/-- SQL `column LIKE '%pat%'`: a substring match, case-insensitively; a NULL
column matches no pattern. -/
def likeMatch (pat : String) (s : Option String) : Bool :=
  match s with
  | none => false
  | some str => containsSub (lowerChars pat) (lowerChars str)

/-- The WHERE clause of `QuoteDatabase.get_random_unposted_quote`:
`posted = 0`, and when the `categories` list is non-empty, an OR-disjunction
of one `category LIKE '%cat%'` condition per requested category. -/
def quoteFilter (categories : List String) (r : QuoteRow) : Bool :=
  !r.posted
    && (categories.isEmpty || categories.any (fun c => likeMatch c r.category))

/-- `QuoteDatabase.get_random_unposted_quote`: matching rows,
`ORDER BY RANDOM() LIMIT 1`; the random draw is an arbitrary `k : Nat`
selecting entry `k % n` of the `n` matches, `none` when there are no
matches (sqlite errors also yield `None`). -/
def get_random_unposted_quote (db : List QuoteRow) (categories : List String)
    (k : Nat) : Option QuoteRow :=
  let l := db.filter (quoteFilter categories)
  l.get? (k % l.length)

/-- `QuoteDatabase.mark_quote_posted`: runs
`UPDATE Quote SET posted = 1 WHERE id = ?` and returns
`cursor.rowcount > 0`, i.e. whether any row matched the WHERE clause.
There is no `posted = 0` guard: the update applies regardless of the current
flag, and a row that was already posted still counts in `rowcount`. -/
def mark_quote_posted (db : List QuoteRow) (quote_id : Nat) : Bool × List QuoteRow :=
  (db.any (fun r => r.id == quote_id),
   db.map (fun r => if r.id == quote_id then { r with posted := true } else r))

/-- A row of the legacy `News` table created by
`NewsDatabase._ensure_news_schema`: `id INTEGER PRIMARY KEY`, `title TEXT`,
`url TEXT UNIQUE`, `source TEXT`, `published_date TIMESTAMP`,
`posted INTEGER DEFAULT 0`. -/
structure NewsRow where
  id : Nat
  title : Option String
  url : Option String
  source : Option String
  published_date : Option String
  posted : Bool
deriving Repr, DecidableEq

/-- `NewsDatabase.mark_news_posted`: runs
`UPDATE News SET posted = 1 WHERE id = ?` and returns `cursor.rowcount > 0`;
as with quotes there is no `posted = 0` guard and no timestamp is written. -/
def mark_news_posted (db : List NewsRow) (news_id : Nat) : Bool × List NewsRow :=
  (db.any (fun r => r.id == news_id),
   db.map (fun r => if r.id == news_id then { r with posted := true } else r))

/-- A decoded Telegram API response body (the JSON returned with HTTP 200):
its `ok` flag and the `result.message_id` on success. -/
structure TgResponse where
  ok : Bool
  message_id : Nat
deriving Repr, DecidableEq

/-- Outcome of one HTTP POST inside
`TelegramInterface._make_request_with_retry`: a 200 response with a JSON
body, a non-200 HTTP status, or a network exception. -/
inductive TgAttempt where
  | httpOk (resp : TgResponse)
  | httpErr (code : Nat) (body : String)
  | netErr (msg : String)
deriving Repr, DecidableEq

/-- The retry loop of `TelegramInterface._make_request_with_retry`, over the
stream `att` of per-attempt outcomes, with `fuel` attempts left and `i` the
index of the next attempt.  A 200 response is returned at once (its `ok`
field is not inspected here); a non-200 status or a network error is retried
until the last attempt, where it raises. -/
def makeRequestGo (att : Nat → TgAttempt) : Nat → Nat → Except String TgResponse
  | 0, _ => .error "Request failed after retry attempts"
  | fuel + 1, i =>
    match att i with
    | .httpOk r => .ok r
    | .httpErr code _ =>
      if fuel == 0 then
        .error ("Telegram API request failed after retry attempts: HTTP " ++ toString code)
      else makeRequestGo att fuel (i + 1)
    | .netErr m =>
      if fuel == 0 then .error ("Network error after retry attempts: " ++ m)
      else makeRequestGo att fuel (i + 1)

/-- One full `_make_request_with_retry` call; the constructor clamps the
configured attempt count with `max(1, retry_attempts)`. -/
def makeRequestWithRetry (retry_attempts : Nat) (att : Nat → TgAttempt) :
    Except String TgResponse :=
  makeRequestGo att (max 1 retry_attempts) 0

/-- `TelegramInterface.post_image_and_caption`: the photo is sent first with
`_make_request_with_retry`, then the caption is sent as a second, separate
message.  The second component records what is now visible on the external
channel: a message counts as published exactly when its own HTTP request
succeeded.  On success the method returns `[response_message, response_photo]`. -/
def post_image_and_caption (retry_attempts : Nat)
    (photoAtt captionAtt : Nat → TgAttempt) :
    Except String (List TgResponse) × List String :=
  match makeRequestWithRetry retry_attempts photoAtt with
  | .error m => (.error m, [])
  | .ok rp =>
    match makeRequestWithRetry retry_attempts captionAtt with
    | .error m => (.error m, ["photo"])
    | .ok rm => (.ok [rm, rp], ["photo", "caption"])

/-- Whether an `Except` result is a normal return rather than an exception. -/
def isOkE {e a : Type} : Except e a → Bool
  | .ok _ => true
  | .error _ => false

/-- Outcome of one generation attempt inside `LLMInterface.generate_text`:
the chat call either returns text or raises. -/
inductive GenAttempt where
  | ok (text : String)
  | exn (msg : String)
deriving Repr, DecidableEq

/-- Whether a generation attempt raised. -/
def isExn : GenAttempt → Bool
  | .ok _ => false
  | .exn _ => true

/-- The retry loop of the current `LLMInterface.generate_text`
(src/src/utilities/llm_interface.py): `fuel` attempts remain and `i` is the
0-based index of the next attempt.  On failure before the last attempt it
sleeps `retry_delay * (attempt + 1)` seconds (the recorded delay list) and
retries; failure on the last attempt raises.  If the loop body never runs
(`max_retries = 0`) the Python function falls through and returns `None`,
modelled as `.ok none`. -/
def generateTextGo (retryDelay : Nat) (att : Nat → GenAttempt) :
    Nat → Nat → Except String (Option String) × List Nat
  | 0, _ => (.ok none, [])
  | 1, i =>
    match att i with
    | .ok t => (.ok (some t), [])
    | .exn _ => (.error "Failed to generate text after max retries attempts.", [])
  | fuel + 2, i =>
    match att i with
    | .ok t => (.ok (some t), [])
    | .exn _ =>
      let rest := generateTextGo retryDelay att (fuel + 1) (i + 1)
      (rest.1, retryDelay * (i + 1) :: rest.2)

/-- The current `LLMInterface.generate_text` with its configured
`max_retries` and `retry_delay`, run against the attempt stream `att`;
returns the outcome and the list of sleeps performed between attempts. -/
def generate_text (maxRetries retryDelay : Nat) (att : Nat → GenAttempt) :
    Except String (Option String) × List Nat :=
  generateTextGo retryDelay att maxRetries 0

/-- The retry loop of the legacy `LLMInterface.generate_text`
(src/utilities/llm_interface.py): a hardcoded `range(3)` loop that on every
failure — including the final one — sleeps a constant 30 seconds.  After the
loop the function evaluates an f-string referring to the exception variable
`e`; Python unbinds `e` at the end of each except clause, so that line raises
`NameError` rather than returning the intended error string. -/
def legacyGenerateGo (att : Nat → GenAttempt) :
    Nat → Nat → Except String (Option String) × List Nat
  | 0, _ => (.error "NameError: name e is not defined", [])
  | fuel + 1, i =>
    match att i with
    | .ok t => (.ok (some t), [])
    | .exn _ =>
      let rest := legacyGenerateGo att fuel (i + 1)
      (rest.1, 30 :: rest.2)

/-- The legacy `LLMInterface.generate_text` (3 hardwired attempts,
constant 30-second delay after every failure). -/
def legacy_generate_text (att : Nat → GenAttempt) :
    Except String (Option String) × List Nat :=
  legacyGenerateGo att 3 0

/-- Outcome of one publish attempt inside the orchestrator's
`publish_to_telegram` (weekly_nerd_curiosities/main.py): `send_message`
either returned a decoded response dict or raised an exception. -/
inductive PublishAttempt where
  | resp (r : TgResponse)
  | exn (msg : String)
deriving Repr, DecidableEq

/-- The result dict of `publish_to_telegram`: `success`, `response`, `error`. -/
structure PublishResult where
  success : Bool
  response : Option TgResponse
  error : Option String
deriving Repr, DecidableEq

/-- The retry loop of `publish_to_telegram`: a response with `ok` set
succeeds immediately; a response with `ok` unset is retried, and on the last
attempt is returned as a failure carrying that error response; an exception
is retried, and on the last attempt is returned as a failure with a `None`
response. -/
def publishGo (att : Nat → PublishAttempt) : Nat → Nat → PublishResult
  | 0, _ => { success := false, response := none
              error := some "Failed to publish after retry attempts" }
  | fuel + 1, i =>
    match att i with
    | .resp r =>
      if r.ok then { success := true, response := some r, error := none }
      else if fuel == 0 then
        { success := false, response := some r, error := some "Telegram API error" }
      else publishGo att fuel (i + 1)
    | .exn m =>
      if fuel == 0 then
        { success := false, response := none
          error := some ("Exception during Telegram publish: " ++ m) }
      else publishGo att fuel (i + 1)

/-- `publish_to_telegram` with the configured `retry_attempts`. -/
def publish_to_telegram (retry_attempts : Nat) (att : Nat → PublishAttempt) :
    PublishResult :=
  publishGo att retry_attempts 0

/-- The result dict of `publish_and_update_database`:
`success`, `telegram_response`, `db_updated`, `error`. -/
structure PubUpdResult where
  success : Bool
  telegram_response : Option TgResponse
  db_updated : Bool
  error : Option String
deriving Repr, DecidableEq

/-- `publish_and_update_database`: step 1 publishes; on failure the function
returns at once with the publish result's response and `db_updated = False`,
never touching the store.  Only after a successful publish is
`mark_content_posted` run (modelled by `markRun`, which may return `False`
or raise); both failure shapes are reported with the successful telegram
response and `db_updated = False`.  The second and third components are the
store after the run and whether the mark call was invoked at all. -/
def publish_and_update_database (retry_attempts : Nat)
    (att : Nat → PublishAttempt) (db : List ContentRow)
    (markRun : List ContentRow → Except String (Bool × List ContentRow)) :
    PubUpdResult × List ContentRow × Bool :=
  let pr := publish_to_telegram retry_attempts att
  if pr.success then
    match markRun db with
    | .ok (true, db') =>
      ({ success := true, telegram_response := pr.response
         db_updated := true, error := none }, db', true)
    | .ok (false, db') =>
      ({ success := false, telegram_response := pr.response, db_updated := false
         error := some "Telegram post successful but database update failed" }, db', true)
    | .error m =>
      ({ success := false, telegram_response := pr.response, db_updated := false
         error := some ("Telegram post successful but database error occurred: " ++ m) },
       db, true)
  else
    ({ success := false, telegram_response := pr.response, db_updated := false
       error := some "Telegram publishing failed" }, db, false)

/-- How `main` reports the phase-4 outcome (weekly_nerd_curiosities/main.py):
success; the CRITICAL "post was published to Telegram but not tracked in
database" warning; or the complete-failure troubleshooting branch. -/
inductive Phase4Report where
  | completed
  | publishedButNotTracked
  | completeFailure
deriving Repr, DecidableEq

/-- The phase-4 branching of `main`: after `publish_and_update_database`, a
non-success result is split on
`if publish_result['telegram_response'] and not publish_result['db_updated']`
— i.e. on the truthiness of the response object, not on whether the publish
itself succeeded. -/
def classifyPhase4 (r : PubUpdResult) : Phase4Report :=
  if r.success then .completed
  else if r.telegram_response.isSome && !r.db_updated then .publishedButNotTracked
  else .completeFailure

/-- A one-row `Quote` table: quote 1 exists and is not yet posted. -/
def c1QuoteDb : List QuoteRow :=
  [{ id := 1, author := some "Seneca", category := some "wisdom"
     quote_text := some "Luck is what happens when preparation meets opportunity."
     posted := false }]

/-- A one-row `News` table: news item 7 exists and is not yet posted. -/
def c1NewsDb : List NewsRow :=
  [{ id := 7, title := some "New console announced", url := some "https://example.org/n7"
     source := some "feed", published_date := some "2024-05-01", posted := false }]

/-- The `Quote` rows of the spec's Scenario E: three unposted quotes with
categories anime, sports and manga-comics. -/
def c7Anime : QuoteRow :=
  { id := 1, author := some "A1", category := some "anime"
    quote_text := some "q1", posted := false }

/-- The sports row of Scenario E. -/
def c7Sports : QuoteRow :=
  { id := 2, author := some "A2", category := some "sports"
    quote_text := some "q2", posted := false }

/-- The manga-comics row of Scenario E. -/
def c7Manga : QuoteRow :=
  { id := 3, author := some "A3", category := some "manga-comics"
    quote_text := some "q3", posted := false }

/-- The Scenario E table. -/
def c7Db : List QuoteRow := [c7Anime, c7Sports, c7Manga]

/-- An attempt stream on which every publish attempt yields an API error
response (HTTP 200 with an ok-false body), e.g. a rejected bot token. -/
def apiErrAtt : Nat → PublishAttempt := fun _ => .resp { ok := false, message_id := 0 }

/-- An attempt stream on which the first publish attempt succeeds. -/
def okAtt : Nat → PublishAttempt := fun _ => .resp { ok := true, message_id := 42 }

/-- An attempt stream on which every publish attempt raises a network error. -/
def netDownAtt : Nat → PublishAttempt := fun _ => .exn "connection refused"

/-- A `mark_content_posted` run that raises a storage error
(e.g. a locked or unwritable database file). -/
def markRaises : List ContentRow → Except String (Bool × List ContentRow) :=
  fun _ => .error "database is locked"

/-- A `mark_content_posted` run that returns `False` and leaves the store
unchanged (the duplicate / caught-error paths of the method). -/
def markFails : List ContentRow → Except String (Bool × List ContentRow) :=
  fun db => .ok (false, db)

/-- A generation-attempt stream on which every attempt raises. -/
def allFailGen : Nat → GenAttempt := fun _ => .exn "rate limit exceeded"

/-- A Telegram attempt stream whose first request succeeds. -/
def tgOkAtt : Nat → TgAttempt := fun _ => .httpOk { ok := true, message_id := 10 }

/-- A Telegram attempt stream on which every request gets HTTP 400. -/
def tgBadAtt : Nat → TgAttempt := fun _ => .httpErr 400 "Bad Request"

/-- Whether a list of sleep durations is strictly increasing (the spec's
"increasing delay" between retry attempts). -/
def strictIncr : List Nat → Bool
  | [] => true
  | [_] => true
  | a :: b :: rest => decide (a < b) && strictIncr (b :: rest)

/-- An unposted candidate article sitting in the store. -/
def unpostedCandidate : ContentRow :=
  { content_title := "Spirited Away", content_url := some "https://example.org/sa"
    content_type := some "article", category := some "Anime"
    module_name := some "weekly_nerd_curiosities", post_date := none
    posted := false, metadata := none }

/-- A store holding one already-posted row (nothing unposted matches). -/
def postedOnlyDb : List ContentRow :=
  [{ content_title := "Old article", content_url := none
     content_type := some "article", category := some "Comics"
     module_name := some "weekly_nerd_curiosities"
     post_date := some "2024-01-01", posted := true, metadata := none }]

theorem countKey_zero_insert (db : List ContentRow) (title : String)
    (url cat ct m : Option String) (now : String) (md : Option String)
    (h : countKey db title ct m = 0) :
    mark_content_posted db title url cat ct m now md
      = (true, db ++ [postedInsertRow title url cat ct m now md]) := by
  have hnil : db.filter (matchesKey title ct m) = [] :=
    List.length_eq_zero.mp h
  have hany : db.any (matchesKey title ct m) = false := by
    rw [List.any_eq_false]
    intro r hr
    have := List.filter_eq_nil_iff.mp hnil r hr
    simpa using this
  simp [mark_content_posted, hany]

theorem countKey_pos_insert (db : List ContentRow) (title : String)
    (url cat ct m : Option String) (now : String) (md : Option String)
    (h : 0 < countKey db title ct m) :
    mark_content_posted db title url cat ct m now md = (false, db) := by
  have hne : db.filter (matchesKey title ct m) ≠ [] := by
    intro hnil
    rw [countKey, hnil] at h
    exact absurd h (by simp)
  obtain ⟨r, hr⟩ := List.exists_mem_of_ne_nil _ hne
  have hmem := (List.mem_filter.mp hr).1
  have hkey := (List.mem_filter.mp hr).2
  have hany : db.any (matchesKey title ct m) = true :=
    List.any_eq_true.mpr ⟨r, hmem, hkey⟩
  simp [mark_content_posted, hany]

theorem matchesKey_postedInsertRow (title : String) (url cat : Option String)
    (c mm : String) (now : String) (md : Option String) :
    matchesKey title (some c) (some mm)
      (postedInsertRow title url cat (some c) (some mm) now md) = true := by
  simp [matchesKey, postedInsertRow, sqlEq]

theorem countKey_append (db l2 : List ContentRow) (title : String)
    (ct m : Option String) :
    countKey (db ++ l2) title ct m = countKey db title ct m + countKey l2 title ct m := by
  simp [countKey, List.filter_append]

theorem insertSameKeySeq_of_pos (title : String) (ct m : Option String) :
    ∀ (rest : List (Option String × Option String × String × Option String))
      (db : List ContentRow), 0 < countKey db title ct m →
    insertSameKeySeq db title ct m rest = (List.replicate rest.length false, db) := by
  intro rest
  induction rest with
  | nil => intro db _; rfl
  | cons hd tl ih =>
    intro db h
    obtain ⟨url, cat, now, md⟩ := hd
    simp only [insertSameKeySeq, countKey_pos_insert db title url cat ct m now md h,
      ih db h, List.length_cons, List.replicate_succ]

/-- Claim C2: for every sequence of inserts sharing the same
(title, content_type, source_module) tuple — all three key fields being
actual values, as the data model requires — only the first insert succeeds;
every subsequent insert returns failure (the caught IntegrityError) and
leaves the store untouched, so the store holds exactly one row for the
tuple. -/
theorem c2_insert_dedup :
    ∀ (db : List ContentRow) (title c mm : String) (url cat : Option String)
      (now : String) (md : Option String)
      (rest : List (Option String × Option String × String × Option String)),
    countKey db title (some c) (some mm) = 0 →
    (mark_content_posted db title url cat (some c) (some mm) now md).1 = true
    ∧ countKey (mark_content_posted db title url cat (some c) (some mm) now md).2
        title (some c) (some mm) = 1
    ∧ insertSameKeySeq
        (mark_content_posted db title url cat (some c) (some mm) now md).2
        title (some c) (some mm) rest
      = (List.replicate rest.length false,
         (mark_content_posted db title url cat (some c) (some mm) now md).2) := by
  intro db title c mm url cat now md rest h
  rw [countKey_zero_insert db title url cat (some c) (some mm) now md h]
  have hone : countKey (db ++ [postedInsertRow title url cat (some c) (some mm) now md])
      title (some c) (some mm) = 1 := by
    rw [countKey_append, h]
    simp [countKey, matchesKey_postedInsertRow]
  refine ⟨rfl, hone, ?_⟩
  exact insertSameKeySeq_of_pos title (some c) (some mm) rest _ (by rw [hone]; exact Nat.one_pos)

/-- Witness for C2: inserting the tuple ("X", quote, m1) into an empty store
succeeds, leaves exactly one row for the tuple, and a subsequent insert of
the same tuple returns false and changes nothing. -/
theorem c2_witness :
    (mark_content_posted [] "X" none none (some "quote") (some "m1") "t1" none).1 = true
    ∧ countKey (mark_content_posted [] "X" none none (some "quote") (some "m1") "t1" none).2
        "X" (some "quote") (some "m1") = 1
    ∧ insertSameKeySeq
        (mark_content_posted [] "X" none none (some "quote") (some "m1") "t1" none).2
        "X" (some "quote") (some "m1") [(none, none, "t2", none)]
      = (List.replicate 1 false,
         (mark_content_posted [] "X" none none (some "quote") (some "m1") "t1" none).2) :=
  c2_insert_dedup [] "X" "quote" "m1" none none "t1" none
    [(none, none, "t2", none)] (by decide)

/-- Counterexample to claim C1: the claim says mark_posted succeeds only if
the row currently has posted=false and that a second call on the same id
returns false.  In the code the UPDATE has no posted=0 guard and the return
value is just rowcount > 0, so a second call on the same quote id (and news
id) returns true, not false. -/
theorem c1_counterexample :
    ¬ ((mark_quote_posted (mark_quote_posted c1QuoteDb 1).2 1).1 = false)
    ∧ ¬ ((mark_news_posted (mark_news_posted c1NewsDb 7).2 7).1 = false) := by
  decide

/-- Claim C1 as amended: mark_quote_posted / mark_news_posted set posted=1
unconditionally for the matching id and return true exactly when a row with
that id exists, regardless of its current posted flag; a second call on the
same id returns the same (true) result and leaves the table unchanged; no
post_date is written (the Quote table has no such column, and the News
update leaves published_date untouched). -/
theorem c1_mark_posted_amended :
    ∀ (db : List QuoteRow) (ndb : List NewsRow) (qid nid : Nat),
    ((mark_quote_posted db qid).1 = true ↔ ∃ r ∈ db, r.id = qid)
    ∧ (∀ r ∈ (mark_quote_posted db qid).2, r.id = qid → r.posted = true)
    ∧ (mark_quote_posted (mark_quote_posted db qid).2 qid).1
        = (mark_quote_posted db qid).1
    ∧ (mark_quote_posted (mark_quote_posted db qid).2 qid).2
        = (mark_quote_posted db qid).2
    ∧ ((mark_news_posted ndb nid).1 = true ↔ ∃ r ∈ ndb, r.id = nid)
    ∧ (mark_news_posted ndb nid).2.map NewsRow.published_date
        = ndb.map NewsRow.published_date := by
  intro db ndb qid nid
  refine ⟨?_, ?_, ?_, ?_, ?_, ?_⟩
  · simp [mark_quote_posted, List.any_eq_true]
  · intro r hr hid
    simp only [mark_quote_posted, List.mem_map] at hr
    obtain ⟨s, _, rfl⟩ := hr
    by_cases h : s.id = qid
    · simp [h]
    · simp only [beq_iff_eq, h, if_false] at hid
  · simp only [mark_quote_posted, List.any_map]
    congr 1
    funext r
    by_cases h : r.id = qid <;> simp [Function.comp, h]
  · simp only [mark_quote_posted, List.map_map]
    congr 1
    funext r
    by_cases h : r.id = qid <;> simp [Function.comp, h]
  · simp [mark_news_posted, List.any_eq_true]
  · simp only [mark_news_posted, List.map_map]
    apply List.map_congr_left
    intro r _
    by_cases h : r.id = nid <;> simp [Function.comp, h]

/-- Witness for the amended C1 on the one-row fixtures: the first call on an
existing unposted quote returns true, the repeated call returns the same
result and state, and the news update preserves published_date. -/
theorem c1_amended_witness :
    ((mark_quote_posted c1QuoteDb 1).1 = true ↔ ∃ r ∈ c1QuoteDb, r.id = 1)
    ∧ (∀ r ∈ (mark_quote_posted c1QuoteDb 1).2, r.id = 1 → r.posted = true)
    ∧ (mark_quote_posted (mark_quote_posted c1QuoteDb 1).2 1).1
        = (mark_quote_posted c1QuoteDb 1).1
    ∧ (mark_quote_posted (mark_quote_posted c1QuoteDb 1).2 1).2
        = (mark_quote_posted c1QuoteDb 1).2
    ∧ ((mark_news_posted c1NewsDb 7).1 = true ↔ ∃ r ∈ c1NewsDb, r.id = 7)
    ∧ (mark_news_posted c1NewsDb 7).2.map NewsRow.published_date
        = c1NewsDb.map NewsRow.published_date :=
  c1_mark_posted_amended c1QuoteDb c1NewsDb 1 7

/-- Counterexample to claim C3: a quote migrated as unposted by
migrate_to_content_database gets posted=false together with a set post_date
(the schema default CURRENT_TIMESTAMP applies because the INSERT omits the
column), and the schema default for posted is 1, not false. -/
theorem c3_counterexample :
    ¬ ((∀ r ∈ (migrate_insert_unposted [] "Quote by A: t" (some "wisdom")
          (some "weekly_quote") none "2024-01-01T10:00:00").2, postedDateInvariant r)
       ∧ contentHistoryDefaultPosted = false) := by
  decide

/-- Claim C3 as amended: rows written by mark_content_posted have posted=true
with post_date set to the call time, so posted=true implies a set post_date
for rows the code inserts; but the ContentHistory schema defaults are
posted=1 and post_date=CURRENT_TIMESTAMP, and a row migrated as unposted has
posted=false with post_date nonetheless set — posted=false does not imply an
unset post_date, and the insert default for posted is true, not false. -/
theorem c3_posted_date_amended :
    ∀ (title : String) (url cat ct m md : Option String) (now : String),
    (postedInsertRow title url cat ct m now md).posted = true
    ∧ (postedInsertRow title url cat ct m now md).post_date = some now
    ∧ (migratedUnpostedRow title cat m md now).posted = false
    ∧ (migratedUnpostedRow title cat m md now).post_date = some now
    ∧ contentHistoryDefaultPosted = true := by
  intro title url cat ct m md now
  exact ⟨rfl, rfl, rfl, rfl, rfl⟩

theorem publishGo_success_response (att : Nat → PublishAttempt) :
    ∀ (fuel i : Nat), (publishGo att fuel i).success = true →
    (publishGo att fuel i).response.isSome = true := by
  intro fuel
  induction fuel with
  | zero => intro i h; simp [publishGo] at h
  | succ n ih =>
    intro i h
    rw [publishGo] at h ⊢
    rcases hatt : att i with r | m
    · rw [hatt] at h
      dsimp only at h ⊢
      by_cases hr : r.ok = true
      · rw [if_pos hr]
        rfl
      · rw [if_neg hr] at h ⊢
        by_cases hn : (n == 0) = true
        · rw [if_pos hn] at h
          simp at h
        · rw [if_neg hn] at h ⊢
          exact ih (i + 1) h
    · rw [hatt] at h
      dsimp only at h ⊢
      by_cases hn : (n == 0) = true
      · rw [if_pos hn] at h
        simp at h
      · rw [if_neg hn] at h ⊢
        exact ih (i + 1) h

/-- Claim C4: if the Publisher fails on all retry attempts, the run reports
an error, the mark-posted step is never invoked, and the store is returned
exactly as it was — so any candidate that was unposted is still unposted. -/
theorem c4_publish_failure_leaves_store :
    ∀ (ra : Nat) (att : Nat → PublishAttempt) (db : List ContentRow)
      (markRun : List ContentRow → Except String (Bool × List ContentRow)),
    (publish_to_telegram ra att).success = false →
    (publish_and_update_database ra att db markRun).1.success = false
    ∧ (publish_and_update_database ra att db markRun).1.error.isSome = true
    ∧ (publish_and_update_database ra att db markRun).2.1 = db
    ∧ (publish_and_update_database ra att db markRun).2.2 = false := by
  intro ra att db markRun h
  simp [publish_and_update_database, h]

/-- Witness for C4: three network failures in a row; the store containing the
unposted candidate is untouched and mark is never invoked. -/
theorem c4_witness :
    (publish_and_update_database 3 netDownAtt [unpostedCandidate] markRaises).1.success = false
    ∧ (publish_and_update_database 3 netDownAtt [unpostedCandidate] markRaises).1.error.isSome = true
    ∧ (publish_and_update_database 3 netDownAtt [unpostedCandidate] markRaises).2.1
        = [unpostedCandidate]
    ∧ (publish_and_update_database 3 netDownAtt [unpostedCandidate] markRaises).2.2 = false :=
  c4_publish_failure_leaves_store 3 netDownAtt [unpostedCandidate] markRaises (by decide)

/-- Counterexample to claim C5: the "published but not tracked" report of
main is keyed on the truthiness of the stored telegram response, not on
whether the publish succeeded.  A run whose publish fails on every attempt
with an API error response (so mark_posted is never invoked) is classified
exactly as the true published-but-not-recorded run, so the outcome is not
distinguishable from that ordinary publish failure. -/
theorem c5_counterexample :
    classifyPhase4 (publish_and_update_database 3 apiErrAtt [] markRaises).1
      = Phase4Report.publishedButNotTracked
    ∧ (publish_to_telegram 3 apiErrAtt).success = false
    ∧ (publish_and_update_database 3 apiErrAtt [] markRaises).2.2 = false
    ∧ classifyPhase4 (publish_and_update_database 3 okAtt [] markRaises).1
      = Phase4Report.publishedButNotTracked := by
  decide

/-- Claim C5 as amended: when the publish succeeds and the mark step raises
or returns false, the run result records the successful publish response
with db_updated=false, an error is reported, the store is unchanged by a
raising mark, and main reports the CRITICAL published-but-not-tracked
branch; a non-success result with no response object is instead reported as
a complete failure.  The published-but-not-tracked branch is therefore
distinct from generation failures and from publish failures with no final
response, but not from publish failures whose final attempt carried an API
error response. -/
theorem c5_partial_failure_amended :
    ∀ (ra : Nat) (att : Nat → PublishAttempt) (db : List ContentRow)
      (markRun : List ContentRow → Except String (Bool × List ContentRow)),
    ((publish_to_telegram ra att).success = true →
      (∀ m, markRun db = Except.error m →
        classifyPhase4 (publish_and_update_database ra att db markRun).1
          = Phase4Report.publishedButNotTracked
        ∧ (publish_and_update_database ra att db markRun).1.telegram_response
            = (publish_to_telegram ra att).response
        ∧ (publish_and_update_database ra att db markRun).1.db_updated = false
        ∧ (publish_and_update_database ra att db markRun).1.error.isSome = true
        ∧ (publish_and_update_database ra att db markRun).2.1 = db)
      ∧ (∀ db', markRun db = Except.ok (false, db') →
        classifyPhase4 (publish_and_update_database ra att db markRun).1
          = Phase4Report.publishedButNotTracked))
    ∧ ((publish_to_telegram ra att).response = none →
        classifyPhase4 (publish_and_update_database ra att db markRun).1
          ≠ Phase4Report.publishedButNotTracked) := by
  intro ra att db markRun
  constructor
  · intro hp
    have hresp : (publish_to_telegram ra att).response.isSome = true :=
      publishGo_success_response att ra 0 hp
    constructor
    · intro m hm
      simp [publish_and_update_database, hp, hm, classifyPhase4, hresp]
    · intro db' hm
      simp [publish_and_update_database, hp, hm, classifyPhase4, hresp]
  · intro hnone
    unfold publish_and_update_database classifyPhase4
    by_cases hp : (publish_to_telegram ra att).success = true
    · cases hmr : markRun db with
      | ok pr =>
        obtain ⟨ok, db'⟩ := pr
        cases ok <;> simp [hp, hmr, hnone]
      | error m => simp [hp, hmr, hnone]
    · simp [hp, hnone]

/-- Witness for the amended C5: publish succeeds on the first attempt, the
mark step raises a storage error, and main lands in the CRITICAL branch with
the success response recorded and the store untouched; while a publish that
never produced a response is reported as a complete failure. -/
theorem c5_amended_witness :
    (classifyPhase4 (publish_and_update_database 3 okAtt [unpostedCandidate] markRaises).1
       = Phase4Report.publishedButNotTracked
     ∧ (publish_and_update_database 3 okAtt [unpostedCandidate] markRaises).1.telegram_response
         = (publish_to_telegram 3 okAtt).response
     ∧ (publish_and_update_database 3 okAtt [unpostedCandidate] markRaises).1.db_updated = false
     ∧ (publish_and_update_database 3 okAtt [unpostedCandidate] markRaises).1.error.isSome = true
     ∧ (publish_and_update_database 3 okAtt [unpostedCandidate] markRaises).2.1
         = [unpostedCandidate])
    ∧ classifyPhase4 (publish_and_update_database 3 netDownAtt [unpostedCandidate] markRaises).1
        ≠ Phase4Report.publishedButNotTracked :=
  ⟨((c5_partial_failure_amended 3 okAtt [unpostedCandidate] markRaises).1
      (by decide)).1 "database is locked" rfl,
   (c5_partial_failure_amended 3 netDownAtt [unpostedCandidate] markRaises).2 (by decide)⟩

theorem strictIncr_iff_chain (l : List Nat) :
    strictIncr l = true ↔ List.Chain' (fun a b : Nat => a < b) l := by
  induction l with
  | nil => simp [strictIncr]
  | cons a rest ih =>
    cases rest with
    | nil => simp [strictIncr]
    | cons b t =>
      rw [List.chain'_cons, ← ih]
      simp [strictIncr]

theorem strictIncr_mul_range (d : Nat) (hd : 0 < d) (n : Nat) :
    strictIncr ((List.range n).map (fun j => d * (j + 1))) = true := by
  rw [strictIncr_iff_chain, List.chain'_map]
  exact ((List.pairwise_lt_range n).imp
    (fun hab => (Nat.mul_lt_mul_left hd).mpr (by omega))).chain'

theorem legacyGenerateGo_allFail (att : Nat → GenAttempt)
    (hf : ∀ j, isExn (att j) = true) :
    ∀ (fuel i : Nat), legacyGenerateGo att fuel i
      = (Except.error "NameError: name e is not defined", List.replicate fuel 30) := by
  intro fuel
  induction fuel with
  | zero => intro i; rfl
  | succ n ih =>
    intro i
    have h := hf i
    cases hatt : att i with
    | ok t => rw [hatt] at h; simp [isExn] at h
    | exn m =>
      rw [legacyGenerateGo, hatt]
      simp [ih (i + 1), List.replicate_succ]

theorem generateTextGo_allFail (d : Nat) (att : Nat → GenAttempt)
    (hf : ∀ j, isExn (att j) = true) :
    ∀ (fuel i : Nat), generateTextGo d att (fuel + 1) i
      = (Except.error "Failed to generate text after max retries attempts.",
         (List.range fuel).map (fun j => d * (i + j + 1))) := by
  intro fuel
  induction fuel with
  | zero =>
    intro i
    have h := hf i
    cases hatt : att i with
    | ok t => rw [hatt] at h; simp [isExn] at h
    | exn m => rw [generateTextGo, hatt]; rfl
  | succ n ih =>
    intro i
    have h := hf i
    cases hatt : att i with
    | ok t => rw [hatt] at h; simp [isExn] at h
    | exn m =>
      show generateTextGo d att (n + 2) i = _
      rw [generateTextGo, hatt]
      rw [ih (i + 1)]
      refine Prod.ext rfl ?_
      rw [List.range_succ_eq_map]
      simp only [List.map_cons, List.map_map]
      refine congrArg₂ List.cons
        (congrArg (fun t => d * t) (by omega : i + 1 = i + 0 + 1)) ?_
      apply List.map_congr_left
      intro x _
      show d * (i + 1 + x + 1) = d * (i + (x + 1) + 1)
      exact congrArg (fun t => d * t) (by omega)

/-- Counterexample to claim C6: the legacy LLMInterface.generate_text
(src/utilities/llm_interface.py), one of the two generators the claim
covers, sleeps a constant 30 seconds after every failed attempt — including
the final one — so its delay sequence [30, 30, 30] is not increasing. -/
theorem c6_counterexample :
    (legacy_generate_text allFailGen).2 = [30, 30, 30]
    ∧ strictIncr (legacy_generate_text allFailGen).2 = false := by
  decide

/-- Claim C6 as amended: the current LLMInterface.generate_text retries up
to its configured max_retries, sleeping retry_delay * (attempt + 1) between
attempts — a strictly increasing delay whenever retry_delay is positive —
and raises a terminal error after exhausting all attempts; the legacy
LLMInterface instead performs 3 hardwired attempts with a constant
30-second delay after every failure (sleeping even after the last one)
before its post-loop error path raises. -/
theorem c6_generator_retry_amended :
    ∀ (maxRetries retryDelay : Nat) (att : Nat → GenAttempt),
    0 < maxRetries → (∀ j, isExn (att j) = true) →
    ((generate_text maxRetries retryDelay att).1
        = Except.error "Failed to generate text after max retries attempts."
     ∧ (generate_text maxRetries retryDelay att).2
        = (List.range (maxRetries - 1)).map (fun j => retryDelay * (j + 1))
     ∧ (0 < retryDelay → strictIncr (generate_text maxRetries retryDelay att).2 = true))
    ∧ ((legacy_generate_text att).1 = Except.error "NameError: name e is not defined"
       ∧ (legacy_generate_text att).2 = [30, 30, 30]) := by
  intro maxRetries retryDelay att hpos hf
  obtain ⟨n, rfl⟩ : ∃ n, maxRetries = n + 1 := ⟨maxRetries - 1, by omega⟩
  have hmain := generateTextGo_allFail retryDelay att hf n 0
  have hdel : (List.range n).map (fun j => retryDelay * (0 + j + 1))
      = (List.range n).map (fun j => retryDelay * (j + 1)) := by
    apply List.map_congr_left
    intro x _
    exact congrArg (fun t => retryDelay * t) (by omega)
  constructor
  · refine ⟨?_, ?_, ?_⟩
    · show (generateTextGo retryDelay att (n + 1) 0).1 = _
      rw [hmain]
    · show (generateTextGo retryDelay att (n + 1) 0).2 = _
      rw [hmain]
      simp only [hdel, Nat.add_sub_cancel]
    · intro hd
      show strictIncr (generateTextGo retryDelay att (n + 1) 0).2 = true
      rw [hmain]
      rw [hdel]
      exact strictIncr_mul_range retryDelay hd n
  · have hleg := legacyGenerateGo_allFail att hf 3 0
    constructor
    · show (legacyGenerateGo att 3 0).1 = _
      rw [hleg]
    · show (legacyGenerateGo att 3 0).2 = _
      rw [hleg]
      rfl

/-- Witness for the amended C6: three attempts, 30-second base delay, every
attempt failing: the current generator raises after sleeping 30 then 60
seconds (strictly increasing), the legacy one sleeps 30, 30, 30. -/
theorem c6_amended_witness :
    ((generate_text 3 30 allFailGen).1
        = Except.error "Failed to generate text after max retries attempts."
     ∧ (generate_text 3 30 allFailGen).2
        = (List.range 2).map (fun j => 30 * (j + 1))
     ∧ (0 < 30 → strictIncr (generate_text 3 30 allFailGen).2 = true))
    ∧ ((legacy_generate_text allFailGen).1
        = Except.error "NameError: name e is not defined"
       ∧ (legacy_generate_text allFailGen).2 = [30, 30, 30]) :=
  c6_generator_retry_amended 3 30 allFailGen (by decide) (fun j => by rfl)

/-- Claim C7: the category filter of get_random_unposted_quote is an OR-list
of substring (LIKE '%cat%') conditions; on Scenario E's table the selected
quote is always the anime or the manga-comics one and never the sports one,
because "manga" occurs inside "manga-comics" while "sports" matches neither
pattern. -/
theorem c7_or_substring_selection :
    ∀ (k : Nat) (r : QuoteRow),
    get_random_unposted_quote c7Db ["anime", "manga"] k = some r →
    (r.category = some "anime" ∨ r.category = some "manga-comics")
    ∧ r.category ≠ some "sports" := by
  have hfil : c7Db.filter (quoteFilter ["anime", "manga"]) = [c7Anime, c7Manga] := by
    decide
  intro k r h
  simp only [get_random_unposted_quote, hfil] at h
  have hm : r ∈ [c7Anime, c7Manga] := List.get?_mem h
  simp only [List.mem_cons, List.not_mem_nil, or_false] at hm
  rcases hm with rfl | rfl <;> decide

/-- Witness for C7: the random draw k = 0 picks the anime quote, which is in
the allowed set and is not the sports row. -/
theorem c7_witness :
    (c7Anime.category = some "anime" ∨ c7Anime.category = some "manga-comics")
    ∧ c7Anime.category ≠ some "sports" :=
  c7_or_substring_selection 0 c7Anime (by decide)

/-- Counterexample to claim C8: publishing an image with its caption is not
all-or-nothing.  The photo and the caption are two separate API messages
sent photo-first; with the photo request succeeding and every caption
request failing, the call raises — yet the photo alone has been published
externally, a partial output. -/
theorem c8_counterexample :
    ¬ (∀ (ra : Nat) (pa ca : Nat → TgAttempt),
        isOkE (post_image_and_caption ra pa ca).1 = false →
        (post_image_and_caption ra pa ca).2 = []) := by
  intro hclaim
  exact absurd (hclaim 1 tgOkAtt tgBadAtt (by decide)) (by decide)

/-- Claim C8 as amended: each individual API message is all-or-nothing, but
an image-with-caption publish is two messages sent photo-first: when both
sends succeed both messages are published; when the photo send raises
nothing is published; when the photo send succeeds and the caption send
raises, the photo alone remains published while the call reports failure. -/
theorem c8_two_message_publish_amended :
    ∀ (ra : Nat) (pa ca : Nat → TgAttempt),
    (∀ rs, (post_image_and_caption ra pa ca).1 = Except.ok rs →
      (post_image_and_caption ra pa ca).2 = ["photo", "caption"])
    ∧ (∀ m, makeRequestWithRetry ra pa = Except.error m →
      (post_image_and_caption ra pa ca).1 = Except.error m
      ∧ (post_image_and_caption ra pa ca).2 = [])
    ∧ (∀ rp m, makeRequestWithRetry ra pa = Except.ok rp →
      makeRequestWithRetry ra ca = Except.error m →
      (post_image_and_caption ra pa ca).1 = Except.error m
      ∧ (post_image_and_caption ra pa ca).2 = ["photo"]) := by
  intro ra pa ca
  cases hp : makeRequestWithRetry ra pa with
  | error m =>
    refine ⟨?_, ?_, ?_⟩
    · intro rs hok
      simp [post_image_and_caption, hp] at hok
    · intro m' hm'
      injection hm' with hme
      subst hme
      simp [post_image_and_caption, hp]
    · intro rp m' hok _
      exact absurd hok (by simp)
  | ok rp =>
    cases hc : makeRequestWithRetry ra ca with
    | error m =>
      refine ⟨?_, ?_, ?_⟩
      · intro rs hok
        simp [post_image_and_caption, hp, hc] at hok
      · intro m' hm'
        exact absurd hm' (by simp)
      · intro rp' m' _ hc'
        injection hc' with hme
        subst hme
        simp [post_image_and_caption, hp, hc]
    | ok rm =>
      refine ⟨?_, ?_, ?_⟩
      · intro rs _
        simp [post_image_and_caption, hp, hc]
      · intro m' hm'
        exact absurd hm' (by simp)
      · intro rp' m' _ hc'
        exact absurd hc' (by simp)

/-- Witness for the amended C8: one-attempt interface, photo send succeeds,
caption send gets HTTP 400: the call reports the caption error while the
photo alone is published. -/
theorem c8_amended_witness :
    (post_image_and_caption 1 tgOkAtt tgBadAtt).1
      = Except.error ("Telegram API request failed after retry attempts: HTTP "
          ++ toString 400)
    ∧ (post_image_and_caption 1 tgOkAtt tgBadAtt).2 = ["photo"] :=
  (c8_two_message_publish_amended 1 tgOkAtt tgBadAtt).2.2
    { ok := true, message_id := 10 } _ rfl rfl

/-- Claim C9: random unposted selection never returns a row whose posted
flag is set, and returns None exactly when no row matches the filters —
for both the generic content store and the quote store, for every store
state, every filter choice and every random draw. -/
theorem c9_unposted_selection :
    ∀ (db : List ContentRow) (qdb : List QuoteRow) (ct cat : Option String)
      (cats : List String) (k : Nat),
    (∀ r, get_random_unposted_content db ct cat k = some r → r.posted = false)
    ∧ (db.filter (contentFilter ct cat) = [] →
        get_random_unposted_content db ct cat k = none)
    ∧ (∀ q, get_random_unposted_quote qdb cats k = some q → q.posted = false)
    ∧ (qdb.filter (quoteFilter cats) = [] →
        get_random_unposted_quote qdb cats k = none) := by
  intro db qdb ct cat cats k
  refine ⟨?_, ?_, ?_, ?_⟩
  · intro r h
    simp only [get_random_unposted_content] at h
    have hm : r ∈ db.filter (contentFilter ct cat) := List.get?_mem h
    have hflt := (List.mem_filter.mp hm).2
    simp only [contentFilter, Bool.and_eq_true, Bool.not_eq_true'] at hflt
    exact hflt.1.1
  · intro hnil
    simp [get_random_unposted_content, hnil]
  · intro q h
    simp only [get_random_unposted_quote] at h
    have hm : q ∈ qdb.filter (quoteFilter cats) := List.get?_mem h
    have hflt := (List.mem_filter.mp hm).2
    simp only [quoteFilter, Bool.and_eq_true, Bool.not_eq_true'] at hflt
    exact hflt.1
  · intro hnil
    simp [get_random_unposted_quote, hnil]

/-- Witness for C9: a store whose only row is already posted yields None for
the generic selection, and an empty quote table yields None even with a
category filter. -/
theorem c9_witness :
    get_random_unposted_content postedOnlyDb none none 5 = none
    ∧ get_random_unposted_quote [] ["anime"] 0 = none :=
  ⟨(c9_unposted_selection postedOnlyDb [] none none [] 5).2.1 (by decide),
   (c9_unposted_selection [] [] none none ["anime"] 0).2.2.2 (by decide)⟩

/-- Claim C10: when the backing store raises during the already-posted
check, is_content_posted and is_article_posted return true ("already
posted") rather than raising or returning false — even for a title that no
row of the store carries, which without the error would be reported as not
posted. -/
theorem c10_storage_error_assumes_posted :
    ∀ (db : List ContentRow) (adb : List ArticleRow) (e title atitle : String)
      (ct : Option String),
    is_content_posted db (some e) title ct = true
    ∧ is_article_posted adb (some e) atitle = true
    ∧ ((∀ r ∈ db, r.content_title ≠ title) →
        is_content_posted db none title ct = false)
    ∧ ((∀ r ∈ adb, r.article_title ≠ atitle) →
        is_article_posted adb none atitle = false) := by
  intro db adb e title atitle ct
  refine ⟨rfl, rfl, ?_, ?_⟩
  · intro hnone
    have hnil : db.filter (fun r =>
        r.content_title == title && r.posted
          && (match ct with
              | none => true
              | some t => r.content_type == some t)) = [] := by
      rw [List.filter_eq_nil_iff]
      intro r hr
      simp [hnone r hr]
    simp [is_content_posted, hnil]
  · intro hnone
    have hnil : adb.filter (fun r => r.article_title == atitle && r.posted) = [] := by
      rw [List.filter_eq_nil_iff]
      intro r hr
      simp [hnone r hr]
    simp [is_article_posted, hnil]

/-- Witness for C10: with a storage error both checks report a never-posted
title as posted; without the error the same title is reported unposted. -/
theorem c10_witness :
    is_content_posted [] (some "database is locked") "Ghost article" (some "article") = true
    ∧ is_article_posted [] (some "database is locked") "Ghost article" = true
    ∧ is_content_posted [] none "Ghost article" (some "article") = false
    ∧ is_article_posted [] none "Ghost article" = false := by
  have T := c10_storage_error_assumes_posted [] [] "database is locked"
    "Ghost article" "Ghost article" (some "article")
  exact ⟨T.1, T.2.1, T.2.2.1 (by simp), T.2.2.2 (by simp)⟩
